import Mathlib

/-!
Shallow embedding of the notification-state logic of a GitHub issue alert
bot: the `StateManager` class of `state_manager.py`, the per-repository
poll step of `check_once.py`, and the per-repository step of the
monitoring loop in `main.py`.
-/

/-- Hashable Python scalar values that can appear as tracked item ids.
Python identifies `True` with `1` and `False` with `0` inside sets, so
JSON booleans are mapped to those integers when hashed. -/
inductive PyVal
  | none
  | int (n : Int)
  | str (s : String)
deriving DecidableEq, Repr

/-- A JSON value as decoded by `json.load`. Numeric payloads in this
development are integers, which covers every item id. -/
inductive JVal
  | null
  | bool (b : Bool)
  | num (n : Int)
  | str (s : String)
  | arr (xs : List JVal)
  | obj (kvs : List (String × JVal))

/-- An observed item (issue) from the provider. `number` is the value of
`issue.get ("number")`, with `PyVal.none` when the key is missing or holds
null; `payload` stands for the remaining opaque fields (title, body, ...),
so that two distinct items with the same id stay distinguishable. -/
structure Issue where
  number : PyVal
  payload : Nat
deriving DecidableEq, Repr

/-- The in-memory state `StateManager.notified_issues`: a Python dict from
repository key to a set of ids, modelled as an association list in
insertion order (Python dicts are ordered and their keys are unique). -/
abbrev Snapshot := List (String × Finset PyVal)

/-- Python dict lookup: the value at the first matching key. -/
def dictLookup (s : Snapshot) (k : String) : Option (Finset PyVal) :=
  match s with
  | [] => Option.none
  | (k', v) :: rest => if k' = k then some v else dictLookup rest k

/-- Python dict assignment `d[k] = v`: replaces the value in place when
the key is present, otherwise appends the new key at the end. -/
def dictSet (s : Snapshot) (k : String) (v : Finset PyVal) : Snapshot :=
  match s with
  | [] => [(k, v)]
  | (k', w) :: rest =>
    if k' = k then (k, v) :: rest else (k', w) :: dictSet rest k v

/-- `StateManager.is_notified`: false when the repo key is absent,
otherwise membership of the id in the tracked set. -/
def is_notified (s : Snapshot) (repo : String) (issue_number : PyVal) : Bool :=
  match dictLookup s repo with
  | Option.none => false
  | some tracked => decide (issue_number ∈ tracked)

/-- `StateManager.mark_notified` without the trailing `save_state` side
effect (saving does not change the in-memory dict): create the entry if
absent, then add the id to its set. -/
def mark_notified (s : Snapshot) (repo : String) (issue_number : PyVal) : Snapshot :=
  let s₁ := if (dictLookup s repo).isNone then dictSet s repo ∅ else s
  dictSet s₁ repo (insert issue_number ((dictLookup s₁ repo).getD ∅))

/-- `StateManager.is_repo_initialized`: the repo key is present and its
tracked set is nonempty. -/
def is_repo_initialized (s : Snapshot) (repo : String) : Bool :=
  match dictLookup s repo with
  | Option.none => false
  | some tracked => decide (0 < tracked.card)

/-- `StateManager.sync_state_with_current_issues` without the trailing
`save_state`: replace the tracked set of `repo` by the set of ids of the
current issues (a Python set comprehension over `issue.get ("number")`). -/
def sync_state_with_current_issues (s : Snapshot) (repo : String)
    (current_issues : List Issue) : Snapshot :=
  let current_issue_numbers := (current_issues.map Issue.number).toFinset
  let s₁ := if (dictLookup s repo).isNone then dictSet s repo ∅ else s
  dictSet s₁ repo current_issue_numbers

/-- `StateManager.is_state_stale`. Python compares the ratio, a float
division, against the float `threshold`; the exact rational comparison
used here agrees with it for every set size below astronomic magnitudes
(the default threshold 0.5 is an exact float). The redundant final branch
of the Python code is kept as it is. -/
def is_state_stale (s : Snapshot) (repo : String) (current_issues : List Issue)
    (threshold : ℚ) : Bool :=
  match dictLookup s repo with
  | Option.none => true
  | some tracked =>
    if tracked.card = 0 then true
    else
      let current_issue_numbers := (current_issues.map Issue.number).toFinset
      let still_exist := (tracked ∩ current_issue_numbers).card
      let total_tracked := tracked.card
      if 0 < total_tracked then
        decide ((still_exist : ℚ) / (total_tracked : ℚ) < threshold)
      else true

/-- `StateManager.get_new_issues`: the filtered list, paired with the
state of the dict when the method returns (the method reads but never
writes `notified_issues`, which the pairing makes explicit). -/
def get_new_issues (s : Snapshot) (repo : String) (issues : List Issue) :
    List Issue × Snapshot :=
  (issues.filter (fun issue => !(is_notified s repo issue.number)), s)

/-- The tracked id set of a repository, empty when the repo is unknown. -/
def trackedOf (s : Snapshot) (repo : String) : Finset PyVal :=
  (dictLookup s repo).getD ∅

/-- The set of ids of a list of observed items. -/
def obsIds (issues : List Issue) : Finset PyVal :=
  (issues.map Issue.number).toFinset

/-- Issues with the given integer ids and a zero payload. -/
def intIssues (L : List Int) : List Issue :=
  L.map (fun n => ⟨PyVal.int n, 0⟩)

/-- The finite set of the given integer ids. -/
def intIds (L : List Int) : Finset PyVal :=
  (L.map PyVal.int).toFinset

theorem dictLookup_dictSet_self (s : Snapshot) (k : String) (v : Finset PyVal) :
    dictLookup (dictSet s k v) k = some v := by
  induction s with
  | nil => simp [dictSet, dictLookup]
  | cons kv rest ih =>
    obtain ⟨k', w⟩ := kv
    by_cases h : k' = k
    · simp [dictSet, dictLookup, h]
    · simp [dictSet, dictLookup, h, ih]

theorem dictSet_dictSet_self (s : Snapshot) (k : String) (v w : Finset PyVal) :
    dictSet (dictSet s k v) k w = dictSet s k w := by
  induction s with
  | nil => simp [dictSet]
  | cons kv rest ih =>
    obtain ⟨k', u⟩ := kv
    by_cases h : k' = k
    · simp [dictSet, h]
    · simp [dictSet, h, ih]

theorem dictLookup_sync_self (s : Snapshot) (repo : String) (items : List Issue) :
    dictLookup (sync_state_with_current_issues s repo items) repo =
      some (obsIds items) := by
  unfold sync_state_with_current_issues obsIds
  cases h : (dictLookup s repo).isNone <;>
    simp [h, dictLookup_dictSet_self]

theorem mark_notified_eq (s : Snapshot) (repo : String) (n : PyVal) :
    mark_notified s repo n =
      dictSet (if (dictLookup s repo).isNone then dictSet s repo ∅ else s) repo
        (insert n (trackedOf s repo)) := by
  unfold mark_notified trackedOf
  cases h : dictLookup s repo <;> simp [h, dictLookup_dictSet_self]

theorem dictLookup_mark_self (s : Snapshot) (repo : String) (n : PyVal) :
    dictLookup (mark_notified s repo n) repo = some (insert n (trackedOf s repo)) := by
  rw [mark_notified_eq]
  exact dictLookup_dictSet_self _ _ _

theorem is_state_stale_iff_spec (s : Snapshot) (repo : String) (items : List Issue) (t : ℚ) :
    is_state_stale s repo items t = true ↔
      (trackedOf s repo = ∅ ∨
        ((trackedOf s repo ∩ obsIds items).card : ℚ) / ((trackedOf s repo).card : ℚ) < t) := by
  unfold is_state_stale trackedOf obsIds
  cases h : dictLookup s repo with
  | none => simp
  | some tracked =>
    by_cases hc : tracked.card = 0
    · simp [hc, Finset.card_eq_zero.mp hc]
    · have hpos : 0 < tracked.card := Nat.pos_of_ne_zero hc
      have hne : tracked ≠ ∅ := by
        intro he
        exact hc (by simp [he])
      simp [hc, hpos, hne]

/-- Integer ids 1 to n. -/
def rangeList (n : Nat) : List Int :=
  (List.range n).map (fun k => ((k : Int) + 1))

set_option maxRecDepth 10000 in
/-- Claim C1: `is_state_stale` returns true iff the repo has no tracked
ids, or the fraction of tracked ids surviving among the observed ids is
strictly below the threshold. In particular a ratio exactly at the
threshold (2 of 4 tracked ids surviving with threshold 0.5) is not stale,
while 49 of 100 surviving is stale. -/
theorem c1_is_state_stale_matches_spec :
    (∀ (s : Snapshot) (repo : String) (items : List Issue) (t : ℚ),
      is_state_stale s repo items t = true ↔
        (trackedOf s repo = ∅ ∨
          ((trackedOf s repo ∩ obsIds items).card : ℚ) / ((trackedOf s repo).card : ℚ) < t)) ∧
    is_state_stale [("r", intIds [1, 2, 3, 4])] "r" (intIssues [1, 2, 5, 6]) (1/2) = false ∧
    is_state_stale [("r", intIds (rangeList 100))] "r" (intIssues (rangeList 49)) (1/2)
      = true := by
  refine ⟨is_state_stale_iff_spec, ?_, ?_⟩
  · rw [← Bool.not_eq_true, is_state_stale_iff_spec]
    push_neg
    constructor
    · decide
    · have h2 :
          (trackedOf [("r", intIds [1, 2, 3, 4])] "r"
            ∩ obsIds (intIssues [1, 2, 5, 6])).card = 2 := by decide
      have h4 : (trackedOf [("r", intIds [1, 2, 3, 4])] "r").card = 4 := by decide
      rw [h2, h4]
      norm_num
  · rw [is_state_stale_iff_spec]
    right
    have h49 :
        (trackedOf [("r", intIds (rangeList 100))] "r"
          ∩ obsIds (intIssues (rangeList 49))).card = 49 := by decide
    have h100 : (trackedOf [("r", intIds (rangeList 100))] "r").card = 100 := by decide
    rw [h49, h100]
    norm_num

/-- Claim C5 (amended): a repository key never seen by the store is not
initialized, and after one `sync_state_with_current_issues` call with a
nonempty observed list it is initialized. (With an empty observed list the
tracked set becomes empty and the repo stays uninitialized, which is what
forces the nonemptiness hypothesis.) -/
theorem c5_initialized_after_sync :
    (∀ (s : Snapshot) (repo : String),
      dictLookup s repo = Option.none → is_repo_initialized s repo = false) ∧
    (∀ (s : Snapshot) (repo : String) (items : List Issue), items ≠ [] →
      is_repo_initialized (sync_state_with_current_issues s repo items) repo = true) := by
  constructor
  · intro s repo h
    simp [is_repo_initialized, h]
  · intro s repo items h
    simp only [is_repo_initialized, dictLookup_sync_self]
    cases items with
    | nil => exact absurd rfl h
    | cons i rest =>
      simp [obsIds, Finset.card_pos]

/-- Witness for C5: instantiation at a fresh store, the repo key r and a
one-item observed list. -/
theorem c5_initialized_after_sync_witness :
    is_repo_initialized [] "r" = false ∧
    is_repo_initialized (sync_state_with_current_issues [] "r" (intIssues [5])) "r"
      = true :=
  ⟨c5_initialized_after_sync.1 [] "r" rfl,
   c5_initialized_after_sync.2 [] "r" (intIssues [5]) (by decide)⟩

/-- Counterexample for C5 as stated: syncing a never-seen repo with an
empty observed list leaves it uninitialized. -/
theorem c5_sync_empty_not_initialized :
    dictLookup [] "r" = Option.none ∧
    is_repo_initialized (sync_state_with_current_issues [] "r" []) "r" = false := by
  constructor
  · rfl
  · decide

/-- Claim C6: `get_new_issues` returns exactly the issues whose id is not
tracked for the repo, as a sublist of the input (hence preserving the
relative input order), and leaves the state unchanged. -/
theorem c6_get_new_issues_pure_filter :
    ∀ (s : Snapshot) (repo : String) (issues : List Issue),
      (get_new_issues s repo issues).2 = s ∧
      List.Sublist (get_new_issues s repo issues).1 issues ∧
      ∀ i : Issue, i ∈ (get_new_issues s repo issues).1 ↔
        (i ∈ issues ∧ is_notified s repo i.number = false) := by
  intro s repo issues
  refine ⟨rfl, List.filter_sublist issues, ?_⟩
  intro i
  simp [get_new_issues, List.mem_filter]

/-- Claim C7: `mark_notified` is idempotent, the marked id occurs exactly
once in the tracked set, and a subsequent `get_new_issues` excludes every
issue carrying that id. -/
theorem c7_mark_notified_idempotent :
    ∀ (s : Snapshot) (repo : String) (n : PyVal),
      mark_notified (mark_notified s repo n) repo n = mark_notified s repo n ∧
      (trackedOf (mark_notified s repo n) repo).val.count n = 1 ∧
      ∀ (issues : List Issue) (i : Issue),
        i ∈ (get_new_issues (mark_notified s repo n) repo issues).1 →
        i.number ≠ n := by
  intro s repo n
  have hl : dictLookup (mark_notified s repo n) repo =
      some (insert n (trackedOf s repo)) := dictLookup_mark_self s repo n
  have htr : trackedOf (mark_notified s repo n) repo = insert n (trackedOf s repo) := by
    rw [trackedOf, hl]
    rfl
  refine ⟨?_, ?_, ?_⟩
  · rw [mark_notified_eq (mark_notified s repo n), hl, htr]
    simp only [Option.isNone_some, Bool.false_eq_true, if_false, Finset.insert_idem]
    rw [mark_notified_eq s]
    exact dictSet_dictSet_self _ _ _ _
  · rw [htr]
    exact Multiset.count_eq_one_of_mem (insert n (trackedOf s repo)).nodup
      (Finset.mem_insert_self n _)
  · intro issues i hi heq
    simp only [get_new_issues, List.mem_filter] at hi
    have h2 := hi.2
    rw [heq, is_notified, hl] at h2
    simp at h2

/-- Claim C10: a `sync_state_with_current_issues` call immediately
followed by `get_new_issues` on the same observed list returns no new
issues, so a resync never produces alert candidates for the snapshot it
adopted. -/
theorem c10_get_new_after_sync_empty :
    ∀ (s : Snapshot) (repo : String) (items : List Issue),
      (get_new_issues (sync_state_with_current_issues s repo items) repo items).1 = [] := by
  intro s repo items
  simp only [get_new_issues]
  rw [List.filter_eq_nil_iff]
  intro i hi
  simp [is_notified, dictLookup_sync_self, obsIds]
  exact ⟨i, hi, rfl⟩

/-- JSON encoding of a tracked id, as written by `json.dump`. -/
def pyToJ : PyVal → JVal
  | PyVal.none => JVal.null
  | PyVal.int n => JVal.num n
  | PyVal.str s => JVal.str s

/-- An injective sort key equipping `PyVal` with a linear order, used only
to enumerate a Python set deterministically for serialization. -/
def pyKey : PyVal → Nat ×ₗ Int ×ₗ String
  | PyVal.none => toLex (0, toLex (0, ""))
  | PyVal.int n => toLex (1, toLex (n, ""))
  | PyVal.str s => toLex (2, toLex (0, s))

theorem pyKey_injective : Function.Injective pyKey := by
  intro a b h
  have h' : ofLex (pyKey a) = ofLex (pyKey b) := by rw [h]
  cases a <;> cases b <;> simp [pyKey, toLex_inj, Prod.ext_iff] at h' <;> simp_all

instance : LinearOrder PyVal := LinearOrder.lift' pyKey pyKey_injective

/-- Enumeration of a Python set: `list(set)` lists the elements in an
unspecified order without repetition, modelled by the sorted list. -/
def setList (S : Finset PyVal) : List PyVal :=
  S.sort (fun a b => a ≤ b)

/-- `StateManager.save_state`: the JSON object written to the state file,
a dict from "repos" to a dict mapping each repo to the list of its
tracked ids. -/
def save_state (s : Snapshot) : JVal :=
  JVal.obj [("repos",
    JVal.obj (s.map (fun kv => (kv.1, JVal.arr ((setList kv.2).map pyToJ)))))]

/-- Substring test, modelling Python `needle in haystack` on strings. -/
def strContains (hay pat : String) : Bool :=
  (List.range (hay.length + 1)).any (fun i => pat.data.isPrefixOf (hay.data.drop i))

/-- Python `==` between a string and a decoded JSON value, as used by `in`
on lists: equality across types is false. -/
def jIsStr (key : String) : JVal → Bool
  | JVal.str s => s == key
  | _ => false

/-- Python `key in data` on a decoded JSON value: key membership for
dicts, element equality for lists, substring search for strings, and a
TypeError (modelled as `Except.error`) for values that are not iterable. -/
def pyContainsKey (key : String) : JVal → Except Unit Bool
  | JVal.obj kvs => Except.ok (kvs.any (fun kv => kv.1 == key))
  | JVal.arr xs => Except.ok (xs.any (jIsStr key))
  | JVal.str s => Except.ok (strContains s key)
  | _ => Except.error ()

/-- Hashing of a decoded JSON value on insertion into a Python set:
scalars are hashable, with `True` and `False` identified with `1` and `0`;
lists and dicts raise a TypeError. -/
def pyHash : JVal → Except Unit PyVal
  | JVal.null => Except.ok PyVal.none
  | JVal.bool b => Except.ok (PyVal.int (if b then 1 else 0))
  | JVal.num n => Except.ok (PyVal.int n)
  | JVal.str s => Except.ok (PyVal.str s)
  | _ => Except.error ()

/-- Left to right hashing of the elements of an iterable, stopping at the
first TypeError. -/
def pyHashList : List JVal → Except Unit (List PyVal)
  | [] => Except.ok []
  | v :: vs =>
    match pyHash v with
    | Except.error e => Except.error e
    | Except.ok h =>
      match pyHashList vs with
      | Except.error e => Except.error e
      | Except.ok hs => Except.ok (h :: hs)

/-- Python `set(x)`: iterates a list elementwise, a string by character,
a dict by key; other values are not iterable and raise a TypeError. -/
def pySet : JVal → Except Unit (Finset PyVal)
  | JVal.arr xs => (pyHashList xs).map List.toFinset
  | JVal.str s =>
    Except.ok ((s.data.map (fun c => PyVal.str (String.singleton c))).toFinset)
  | JVal.obj kvs => Except.ok ((kvs.map (fun kv => PyVal.str kv.1)).toFinset)
  | _ => Except.error ()

/-- The entries of the dict comprehension of the new-format branch of
`load_state`: one `set(issues)` per repo key, in order. -/
def pySetEntries : List (String × JVal) → Except Unit Snapshot
  | [] => Except.ok []
  | (k, v) :: rest =>
    match pySet v with
    | Except.error e => Except.error e
    | Except.ok ids =>
      match pySetEntries rest with
      | Except.error e => Except.error e
      | Except.ok entries => Except.ok ((k, ids) :: entries)

/-- `StateManager.load_state`. The argument models the state file:
`Option.none` when the file does not exist, `some (Except.error ())` when
`open` or `json.load` raises (IOError, JSONDecodeError; both caught by the
method), and `some (Except.ok data)` when `json.load` returns a decoded
value. The result is `Except.error ()` exactly when an exception the
method does not catch (a TypeError or AttributeError from an unexpected
shape) escapes. `prev` is the value of `notified_issues` before the call
(`{}` when called from `__init__`); the legacy branch with an empty id
list leaves it untouched. -/
def load_state (prev : Snapshot) (file : Option (Except Unit JVal)) :
    Except Unit Snapshot :=
  match file with
  | Option.none => Except.ok []
  | some (Except.error _) => Except.ok []
  | some (Except.ok data) =>
    match pyContainsKey "repos" data with
    | Except.error e => Except.error e
    | Except.ok true =>
      match data with
      | JVal.obj kvs =>
        match ((kvs.find? (fun kv => kv.1 == "repos")).map Prod.snd).getD (JVal.obj []) with
        | JVal.obj rkvs =>
          (pySetEntries rkvs).map
            (fun entries => entries.foldl (fun acc kv => dictSet acc kv.1 kv.2) [])
        | _ => Except.error ()
      | _ => Except.error ()
    | Except.ok false =>
      match data with
      | JVal.obj kvs =>
        match pySet (((kvs.find? (fun kv => kv.1 == "notified_issues")).map
            Prod.snd).getD (JVal.arr [])) with
        | Except.error e => Except.error e
        | Except.ok old_issues =>
          if old_issues = ∅ then Except.ok prev
          else Except.ok [("_legacy", old_issues)]
      | _ => Except.error ()

/-- The JSON object of a legacy-format state file with id list `L`. -/
def legacyJson (L : List Int) : JVal :=
  JVal.obj [("notified_issues", JVal.arr (L.map JVal.num))]

/-- Closed form of the in-memory state produced by loading a legacy file:
the flat list becomes the tracked set of the reserved key, except that an
empty list leaves the fresh empty dict in place. -/
def legacyMigrated (L : List Int) : Snapshot :=
  if (L.map PyVal.int).toFinset = ∅ then []
  else [("_legacy", (L.map PyVal.int).toFinset)]

/-- One delivery attempt per new issue, shared by both drivers: send the
alert and mark the issue notified on success only. `deliver` models
`telegram.send_message` composed with the formatter. Returns the final
state and the list of issues for which delivery was attempted. -/
def alertLoop (deliver : Issue → Bool) (s : Snapshot) (repo : String) :
    List Issue → Snapshot × List Issue
  | [] => (s, [])
  | issue :: rest =>
    let s' := if deliver issue then mark_notified s repo issue.number else s
    let r := alertLoop deliver s' repo rest
    (r.1, issue :: r.2)

/-- The per-repository body of `check_once.main` after a successful fetch.
Python compares `len(new_issues)` against `len(issues) * 0.8` in floats;
the exact rational `4/5` used here agrees with that comparison for every
list length below astronomic sizes. -/
def checkOnceRepo (deliver : Issue → Bool) (s : Snapshot) (repo : String)
    (issues : List Issue) : Snapshot × List Issue :=
  let is_first_run := !(is_repo_initialized s repo)
  let is_stale := if is_first_run then false else is_state_stale s repo issues (1/2)
  if is_first_run || is_stale then
    (sync_state_with_current_issues s repo issues, [])
  else
    let new_issues := (get_new_issues s repo issues).1
    if !new_issues.isEmpty then
      if ((new_issues.length : ℚ) > (issues.length : ℚ) * (4/5)) then
        (sync_state_with_current_issues s repo issues, [])
      else
        alertLoop deliver s repo new_issues
    else
      (s, [])

/-- The per-repository body of the monitoring loop of `main.main` after a
successful fetch: filter to new issues and alert on each one. This driver
has no staleness check and no safety valve. -/
def mainLoopRepo (deliver : Issue → Bool) (s : Snapshot) (repo : String)
    (issues : List Issue) : Snapshot × List Issue :=
  let new_issues := (get_new_issues s repo issues).1
  if !new_issues.isEmpty then
    alertLoop deliver s repo new_issues
  else
    (s, [])

/-- Counterexample to claim C3 as stated: a state file holding the valid
JSON list [1, 2, 3] is not of the expected format, yet `load_state`
raises (in Python an AttributeError, since a list has no `get` method,
which the except clause for JSONDecodeError and IOError does not catch)
instead of yielding the empty snapshot. -/
theorem c3_load_raises_on_json_list :
    load_state [] (some (Except.ok (JVal.arr [JVal.num 1, JVal.num 2, JVal.num 3])))
      = Except.error () := rfl

/-- Claim C3 (amended): `load_state` yields the empty snapshot without
raising when the state file is missing and when its content cannot be
read or parsed as JSON at all, and after such a load no repo is
initialized; content that parses as JSON but is not an object of the
expected shape raises instead. -/
theorem c3_load_missing_or_unparsable :
    (∀ prev : Snapshot, load_state prev Option.none = Except.ok []) ∧
    (∀ prev : Snapshot, load_state prev (some (Except.error ())) = Except.ok []) ∧
    (∀ repo : String, is_repo_initialized [] repo = false) :=
  ⟨fun _ => rfl, fun _ => rfl, fun _ => rfl⟩

/-- Counterexample to claim C4 as stated: syncing with one observed item
that has no id stores the null id as a tracked id of the repository. -/
theorem c4_sync_stores_null_id :
    trackedOf (sync_state_with_current_issues [] "r" [⟨PyVal.none, 0⟩]) "r"
      = {PyVal.none} ∧
    is_notified (sync_state_with_current_issues [] "r" [⟨PyVal.none, 0⟩]) "r"
      PyVal.none = true := by
  constructor
  · decide
  · decide

/-- Claim C4 (amended): the operations consume items with a null or
missing id without failing, but do not skip them: a sync stores the null
id as a tracked id exactly when some observed item lacks an id, and
`get_new_issues` keeps an id-less item iff the null id is not tracked. -/
theorem c4_null_ids_not_skipped :
    ∀ (s : Snapshot) (repo : String) (items : List Issue),
      (PyVal.none ∈ trackedOf (sync_state_with_current_issues s repo items) repo ↔
        ∃ i ∈ items, i.number = PyVal.none) ∧
      (∀ i : Issue, i ∈ items → i.number = PyVal.none →
        (i ∈ (get_new_issues s repo items).1 ↔
          is_notified s repo PyVal.none = false)) := by
  intro s repo items
  constructor
  · rw [trackedOf, dictLookup_sync_self]
    simp [obsIds, List.mem_toFinset, List.mem_map]
  · intro i hi hnum
    simp [get_new_issues, List.mem_filter, hi, hnum]

/-- Witness for C4: a fresh store, the repo key r and one id-less item. -/
theorem c4_null_ids_not_skipped_witness :
    PyVal.none ∈ trackedOf (sync_state_with_current_issues [] "r" [⟨PyVal.none, 0⟩]) "r" ∧
    (⟨PyVal.none, 0⟩ : Issue) ∈ (get_new_issues [] "r" [⟨PyVal.none, 0⟩]).1 :=
  ⟨(c4_null_ids_not_skipped [] "r" [⟨PyVal.none, 0⟩]).1.mpr
      ⟨⟨PyVal.none, 0⟩, by decide, rfl⟩,
   ((c4_null_ids_not_skipped [] "r" [⟨PyVal.none, 0⟩]).2 ⟨PyVal.none, 0⟩
      (by decide) rfl).mpr (by decide)⟩

theorem valveInput_stale_false :
    is_state_stale [("r", intIds [1])] "r" (intIssues [1, 2, 3, 4, 5, 6]) (1/2) = false := by
  rw [← Bool.not_eq_true, is_state_stale_iff_spec]
  push_neg
  constructor
  · decide
  · have h1 : (trackedOf [("r", intIds [1])] "r"
        ∩ obsIds (intIssues [1, 2, 3, 4, 5, 6])).card = 1 := by decide
    have ht : (trackedOf [("r", intIds [1])] "r").card = 1 := by decide
    rw [h1, ht]
    norm_num

theorem valveInput_ratio_high :
    (((get_new_issues [("r", intIds [1])] "r" (intIssues [1, 2, 3, 4, 5, 6])).1.length : ℚ)
      > ((intIssues [1, 2, 3, 4, 5, 6]).length : ℚ) * (4/5)) := by
  have h5 : (get_new_issues [("r", intIds [1])] "r"
      (intIssues [1, 2, 3, 4, 5, 6])).1.length = 5 := by decide
  have h6 : (intIssues [1, 2, 3, 4, 5, 6]).length = 6 := by decide
  rw [h5, h6]
  norm_num

/-- Claim C2 (amended): in the single-run driver (`check_once.main`), for
an initialized, non-stale repository whose new-item count strictly
exceeds 4/5 of the observed count, the cycle resyncs the state and
attempts no delivery (so nothing is marked notified). The continuous
monitoring loop of `main.main` has no such safety valve (see the
counterexample theorem). -/
theorem c2_safety_valve_check_once :
    ∀ (deliver : Issue → Bool) (s : Snapshot) (repo : String) (issues : List Issue),
      is_repo_initialized s repo = true →
      is_state_stale s repo issues (1/2) = false →
      (((get_new_issues s repo issues).1.length : ℚ) > (issues.length : ℚ) * (4/5)) →
      checkOnceRepo deliver s repo issues =
        (sync_state_with_current_issues s repo issues, []) := by
  intro deliver s repo issues hinit hstale hratio
  have hne : ((get_new_issues s repo issues).1.isEmpty) = false := by
    cases hemp : (get_new_issues s repo issues).1.isEmpty
    · rfl
    · exfalso
      rw [List.isEmpty_iff] at hemp
      rw [hemp] at hratio
      have h0 : (0 : ℚ) ≤ (issues.length : ℚ) * (4/5) := by positivity
      simp at hratio
      linarith
  simp only [checkOnceRepo, hinit, hstale, hne, Bool.not_true, Bool.false_or,
    if_false, Bool.not_false, if_true, hratio, if_pos]
  split <;> rfl

/-- Witness for C2 (amended): one tracked id, six observed items, five of
which are new; the single-run driver resyncs and attempts nothing. -/
theorem c2_safety_valve_check_once_witness :
    checkOnceRepo (fun _ => true) [("r", intIds [1])] "r" (intIssues [1, 2, 3, 4, 5, 6]) =
      (sync_state_with_current_issues [("r", intIds [1])] "r"
        (intIssues [1, 2, 3, 4, 5, 6]), []) :=
  c2_safety_valve_check_once (fun _ => true) [("r", intIds [1])] "r"
    (intIssues [1, 2, 3, 4, 5, 6]) (by decide) valveInput_stale_false valveInput_ratio_high

/-- Counterexample to claim C2 as stated: on the same input (initialized,
not stale, five of six observed items new, ratio above 4/5) the
monitoring-loop driver of `main.main` attempts delivery for all five new
items instead of resyncing with zero alerts. -/
theorem c2_main_loop_alerts_despite_ratio :
    is_repo_initialized [("r", intIds [1])] "r" = true ∧
    is_state_stale [("r", intIds [1])] "r" (intIssues [1, 2, 3, 4, 5, 6]) (1/2) = false ∧
    (((get_new_issues [("r", intIds [1])] "r" (intIssues [1, 2, 3, 4, 5, 6])).1.length : ℚ)
      > ((intIssues [1, 2, 3, 4, 5, 6]).length : ℚ) * (4/5)) ∧
    (mainLoopRepo (fun _ => true) [("r", intIds [1])] "r"
      (intIssues [1, 2, 3, 4, 5, 6])).2 = intIssues [2, 3, 4, 5, 6] :=
  ⟨by decide, valveInput_stale_false, valveInput_ratio_high, by decide⟩

theorem pyHash_pyToJ (v : PyVal) : pyHash (pyToJ v) = Except.ok v := by
  cases v <;> rfl

theorem pyHashList_map_pyToJ (l : List PyVal) :
    pyHashList (l.map pyToJ) = Except.ok l := by
  induction l with
  | nil => rfl
  | cons v vs ih => simp [pyHashList, pyHash_pyToJ, ih]

theorem pySet_setList (S : Finset PyVal) :
    pySet (JVal.arr ((setList S).map pyToJ)) = Except.ok S := by
  simp [pySet, pyHashList_map_pyToJ, setList, Finset.sort_toFinset, Except.map]

theorem pySetEntries_save (s : Snapshot) :
    pySetEntries (s.map (fun kv => (kv.1, JVal.arr ((setList kv.2).map pyToJ)))) =
      Except.ok s := by
  induction s with
  | nil => rfl
  | cons kv rest ih => simp [pySetEntries, pySet_setList, ih]

theorem dictSet_of_not_mem (s : Snapshot) (k : String) (v : Finset PyVal)
    (h : k ∉ s.map Prod.fst) : dictSet s k v = s ++ [(k, v)] := by
  induction s with
  | nil => rfl
  | cons kv rest ih =>
    simp only [List.map_cons, List.mem_cons] at h
    push_neg at h
    have hk : kv.1 ≠ k := fun he => h.1 he.symm
    simp [dictSet, hk, ih h.2]

theorem foldl_dictSet_append :
    ∀ (entries acc : Snapshot), (entries.map Prod.fst).Nodup →
      (∀ k ∈ entries.map Prod.fst, k ∉ acc.map Prod.fst) →
      entries.foldl (fun a kv => dictSet a kv.1 kv.2) acc = acc ++ entries := by
  intro entries
  induction entries with
  | nil => intro acc _ _; simp
  | cons kv rest ih =>
    intro acc hnodup hdisj
    simp only [List.map_cons, List.nodup_cons] at hnodup
    simp only [List.foldl_cons]
    rw [dictSet_of_not_mem acc kv.1 kv.2 (hdisj kv.1 (by simp))]
    rw [ih (acc ++ [(kv.1, kv.2)]) hnodup.2 ?_]
    · simp
    · intro k hk
      simp only [List.map_append, List.mem_append, List.map_cons, List.map_nil]
      push_neg
      constructor
      · exact hdisj k (by simp [hk])
      · intro hm
        simp at hm
        exact hnodup.1 (hm ▸ hk)

/-- Claim C8: `save_state` followed by `load_state` on a fresh store
reproduces the snapshot exactly (same repo keys mapped to the same id
sets), for every snapshot whose dict keys are unique, which holds of
every Python dict. -/
theorem c8_save_load_round_trip :
    ∀ s : Snapshot, (s.map Prod.fst).Nodup →
      load_state [] (some (Except.ok (save_state s))) = Except.ok s := by
  intro s hnodup
  have h : load_state [] (some (Except.ok (save_state s))) =
      (pySetEntries (s.map (fun kv => (kv.1, JVal.arr ((setList kv.2).map pyToJ))))).map
        (fun entries => entries.foldl (fun acc kv => dictSet acc kv.1 kv.2) []) := rfl
  rw [h, pySetEntries_save]
  simpa [Except.map] using foldl_dictSet_append s [] hnodup (by simp)

/-- Witness for C8: a two-repo snapshot survives the round trip. -/
theorem c8_save_load_round_trip_witness :
    load_state [] (some (Except.ok
        (save_state [("a", intIds [1, 2]), ("b", intIds [3])]))) =
      Except.ok [("a", intIds [1, 2]), ("b", intIds [3])] :=
  c8_save_load_round_trip [("a", intIds [1, 2]), ("b", intIds [3])] (by decide)

theorem pyHashList_map_num (L : List Int) :
    pyHashList (L.map JVal.num) = Except.ok (L.map PyVal.int) := by
  induction L with
  | nil => rfl
  | cons n ns ih => simp [pyHashList, pyHash, ih]

theorem load_legacy (L : List Int) :
    load_state [] (some (Except.ok (legacyJson L))) = Except.ok (legacyMigrated L) := by
  have h : load_state [] (some (Except.ok (legacyJson L))) =
      (match pySet (JVal.arr (L.map JVal.num)) with
        | Except.error e => Except.error e
        | Except.ok old_issues =>
          if old_issues = ∅ then Except.ok []
          else Except.ok [("_legacy", old_issues)]) := rfl
  have h2 : pySet (JVal.arr (L.map JVal.num)) =
      Except.ok ((L.map PyVal.int).toFinset) := by
    simp [pySet, pyHashList_map_num, Except.map]
  rw [h, h2]
  by_cases he : (L.map PyVal.int).toFinset = ∅ <;> simp [he, legacyMigrated]

theorem legacyMigrated_equiv (L : List Int) :
    (∀ (repo : String) (n : PyVal),
      is_notified (legacyMigrated L) repo n =
        is_notified [("_legacy", (L.map PyVal.int).toFinset)] repo n) ∧
    (∀ repo : String,
      is_repo_initialized (legacyMigrated L) repo =
        is_repo_initialized [("_legacy", (L.map PyVal.int).toFinset)] repo) := by
  unfold legacyMigrated
  by_cases h : (L.map PyVal.int).toFinset = ∅
  · rw [if_pos h]
    constructor
    · intro repo n
      unfold is_notified dictLookup
      by_cases hr : "_legacy" = repo <;> simp [hr, h, dictLookup]
    · intro repo
      unfold is_repo_initialized dictLookup
      by_cases hr : "_legacy" = repo <;> simp [hr, h, dictLookup]
  · rw [if_neg h]
    exact ⟨fun _ _ => rfl, fun _ => rfl⟩

/-- Claim C9: loading a legacy state file with notified_issues [7, 8, 9]
yields the store mapping the reserved key to the ids 7, 8, 9, on which
id 8 is notified and the key is initialized; and in general every legacy
flat list is migrated in memory to a store observably equal (under every
public read operation) to one mapping the reserved key to the listed ids
(for the empty list the code leaves the dict empty, which no public
operation distinguishes from a reserved key with an empty set). -/
theorem c9_legacy_migration :
    load_state [] (some (Except.ok (legacyJson [7, 8, 9]))) =
      Except.ok [("_legacy", intIds [7, 8, 9])] ∧
    is_notified [("_legacy", intIds [7, 8, 9])] "_legacy" (PyVal.int 8) = true ∧
    is_repo_initialized [("_legacy", intIds [7, 8, 9])] "_legacy" = true ∧
    ∀ L : List Int,
      load_state [] (some (Except.ok (legacyJson L))) = Except.ok (legacyMigrated L) ∧
      (∀ (repo : String) (n : PyVal),
        is_notified (legacyMigrated L) repo n =
          is_notified [("_legacy", (L.map PyVal.int).toFinset)] repo n) ∧
      (∀ repo : String,
        is_repo_initialized (legacyMigrated L) repo =
          is_repo_initialized [("_legacy", (L.map PyVal.int).toFinset)] repo) := by
  refine ⟨?_, by decide, by decide,
    fun L => ⟨load_legacy L, (legacyMigrated_equiv L).1, (legacyMigrated_equiv L).2⟩⟩
  rw [load_legacy [7, 8, 9]]
  have h : legacyMigrated [7, 8, 9] = [("_legacy", intIds [7, 8, 9])] := by decide
  rw [h]

/-- Witness for C1: the boundary instance with ratio exactly 1/2. -/
theorem c1_is_state_stale_matches_spec_witness :
    is_state_stale [("r", intIds [1, 2, 3, 4])] "r" (intIssues [1, 2, 5, 6]) (1/2)
      = false :=
  c1_is_state_stale_matches_spec.2.1

/-- Witness for C3: a missing state file loads as the empty snapshot. -/
theorem c3_load_missing_or_unparsable_witness :
    load_state [("x", intIds [1])] Option.none = Except.ok [] :=
  c3_load_missing_or_unparsable.1 [("x", intIds [1])]

/-- Witness for C6: one tracked id, two observed items. -/
theorem c6_get_new_issues_pure_filter_witness :
    (get_new_issues [("r", intIds [1])] "r" (intIssues [1, 2])).2
      = [("r", intIds [1])] ∧
    ((⟨PyVal.int 2, 0⟩ : Issue)
        ∈ (get_new_issues [("r", intIds [1])] "r" (intIssues [1, 2])).1 ↔
      ((⟨PyVal.int 2, 0⟩ : Issue) ∈ intIssues [1, 2] ∧
        is_notified [("r", intIds [1])] "r" (PyVal.int 2) = false)) :=
  ⟨(c6_get_new_issues_pure_filter [("r", intIds [1])] "r" (intIssues [1, 2])).1,
   (c6_get_new_issues_pure_filter [("r", intIds [1])] "r"
     (intIssues [1, 2])).2.2 ⟨PyVal.int 2, 0⟩⟩

/-- Witness for C7: marking id 42 twice on a fresh store, and a later
`get_new_issues` returning an item whose id is not 42. -/
theorem c7_mark_notified_idempotent_witness :
    mark_notified (mark_notified [] "r" (PyVal.int 42)) "r" (PyVal.int 42) =
      mark_notified [] "r" (PyVal.int 42) ∧
    (⟨PyVal.int 1, 0⟩ : Issue).number ≠ PyVal.int 42 :=
  ⟨(c7_mark_notified_idempotent [] "r" (PyVal.int 42)).1,
   (c7_mark_notified_idempotent [] "r" (PyVal.int 42)).2.2 (intIssues [1])
     ⟨PyVal.int 1, 0⟩ (by decide)⟩

/-- Witness for C9: the general migration conjunct at the list [5]. -/
theorem c9_legacy_migration_witness :
    load_state [] (some (Except.ok (legacyJson [5]))) = Except.ok (legacyMigrated [5]) :=
  (c9_legacy_migration.2.2.2 [5]).1

/-- Witness for C10: sync then filter on the same two-item list. -/
theorem c10_get_new_after_sync_empty_witness :
    (get_new_issues (sync_state_with_current_issues [] "q" (intIssues [1, 2])) "q"
      (intIssues [1, 2])).1 = [] :=
  c10_get_new_after_sync_empty [] "q" (intIssues [1, 2])
